import Mathlib

/-!
# Verification of the Fasal Seva crop-lifecycle and progression engine

A shallow embedding of the game-logic core of the backend
(`backend/app/main.py`, `backend/app/challenges.py`,
`backend/app/achievements.py`, `backend/app/scenario_ai.py`).

Numeric DB columns (`REAL`) are modelled as rationals, coin/XP columns as
integers.  Python's `int(x)` truncation and the `x or default` idiom on
numeric values (which substitutes the default when the stored value is `0`
or `NULL`; `NULL` is modelled as `0`, which the idiom treats identically)
are modelled explicitly by `pyInt` and `pyOr`.
-/

namespace FasalSeva

/-- Python `int(x)`: truncation toward zero. -/
def pyInt (q : ℚ) : ℤ := if 0 ≤ q then ⌊q⌋ else ⌈q⌉

/-- Python `x or d` on a numeric column: yields `d` when `x` is `0`
(or `NULL`, modelled as `0`). -/
def pyOr (x d : ℚ) : ℚ := if x = 0 then d else x

/-- A row of the `crops` table (the columns the lifecycle engine touches). -/
structure Crop where
  growth_stage : ℚ
  water_level : ℚ
  health : ℚ
  fertilizer_level : ℚ
  climate_bonus : ℚ
  total_investment : ℤ
  care_score : ℚ
  deriving Repr, DecidableEq

/-- The reward-bearing columns of a `users` row. -/
structure User where
  coins : ℤ
  xp : ℤ
  deriving Repr, DecidableEq

/-! ## Passive decay (`get_farm_status`, main.py lines 1053–1088) -/

def water_degradation_rate : ℚ := 1
def fertilizer_degradation_rate : ℚ := 8/10
def health_degradation_rate : ℚ := 3/10

/-- The decayed `(water, fertilizer, health)` levels computed on a farm-status
read, for a crop planted `plant_age_hours` ago. -/
def decayed_levels (c : Crop) (plant_age_hours : ℚ) : ℚ × ℚ × ℚ :=
  let eff := min plant_age_hours 24
  let new_water := max 0 (c.water_level - water_degradation_rate * eff)
  let new_fertilizer :=
    max 0 (c.fertilizer_level - fertilizer_degradation_rate * eff)
  let health_rate :=
    if new_water < 30 ∨ new_fertilizer < 30 then health_degradation_rate * 2
    else health_degradation_rate
  let new_health := max 10 (c.health - health_rate * eff)
  (new_water, new_fertilizer, new_health)

/-- The decay step of `get_farm_status`: the computed levels are written back
(to the row and the in-memory dict) only when one of them moved by more than
one unit. -/
def decay_crop (c : Crop) (plant_age_hours : ℚ) : Crop :=
  let l := decayed_levels c plant_age_hours
  if 1 < |l.1 - c.water_level| ∨ 1 < |l.2.1 - c.fertilizer_level| ∨
      1 < |l.2.2 - c.health| then
    { c with water_level := l.1, fertilizer_level := l.2.1, health := l.2.2 }
  else c

/-! ## Growth (`get_farm_status`, main.py lines 1131–1151) -/

def base_growth_rate : ℚ := 25

/-- The growth step of `get_farm_status`. -/
def grow_crop (c : Crop) (hours_passed : ℚ) : Crop :=
  if c.growth_stage < 100 then
    let climate_multiplier := 1 + c.climate_bonus
    let actual_growth_rate := base_growth_rate * climate_multiplier
    let new_growth := min 100 (hours_passed * actual_growth_rate)
    if new_growth ≠ c.growth_stage then { c with growth_stage := new_growth }
    else c
  else c

/-- One farm-status read: decay then growth, both driven by the hours
elapsed since planting. -/
def farm_status_step (c : Crop) (hours : ℚ) : Crop :=
  grow_crop (decay_crop c hours) hours

/-- The row `plant_crop` inserts (main.py line 1253):
`growth_stage 0, water 60, health 75, fertilizer 40`. -/
def plant_initial (cb : ℚ) : Crop :=
  { growth_stage := 0, water_level := 60, health := 75, fertilizer_level := 40
    climate_bonus := cb, total_investment := 0, care_score := 0 }

/-! ## Watering (`water_crop`, main.py lines 1349–1477) -/

/-- A water-quality tier's cost and effects. -/
structure WaterOption where
  cost : ℤ
  water_boost : ℚ
  health_boost : ℚ
  quality_score : ℚ
  deriving Repr, DecidableEq

/-- The `water_options` dict (main.py lines 1359–1363). -/
def water_options (quality_level : String) : Option WaterOption :=
  if quality_level = "basic" then some ⟨5, 25, 3, 60⟩
  else if quality_level = "premium" then some ⟨12, 40, 8, 80⟩
  else if quality_level = "expert" then some ⟨20, 50, 15, 95⟩
  else none

/-- Unrecognized quality levels fall back to `"basic"`
(main.py lines 1365–1366). -/
def normalize_water_quality (quality_level : String) : String :=
  if (water_options quality_level).isSome then quality_level else "basic"

/-- The payload `water_crop` returns on success, together with the updated
user and crop rows. -/
structure WaterResult where
  user : User
  crop : Crop
  cost_paid : ℤ
  efficiency_score : ℚ
  total_xp : ℤ
  deriving Repr, DecidableEq

/-- The `/farm/water/{crop_id}` handler body, for a crop row already looked
up and owned by the user.  An `error` value models an `HTTPException`
raised before any write, leaving every row unchanged. -/
def water_crop (u : User) (c : Crop) (quality_level : String) :
    Except String WaterResult :=
  let ql := normalize_water_quality quality_level
  let water_config := (water_options ql).getD ⟨5, 25, 3, 60⟩
  if u.coins < water_config.cost then .error "Insufficient coins"
  else
    let current_water := pyOr c.water_level 50
    let current_health := pyOr c.health 50
    let current_investment := c.total_investment
    let current_care_score := pyOr c.care_score 60
    let water_need_factor := max (1/2) ((100 - current_water) / 100)
    let efficiency_score := water_config.quality_score * water_need_factor
    let new_water_level := min 100 (current_water + water_config.water_boost)
    let new_health := min 100 (current_health + water_config.health_boost)
    let new_investment := current_investment + water_config.cost
    let new_care_score :=
      current_care_score * (8/10) + efficiency_score * (2/10)
    let base_xp : ℤ := 8
    let bonus_xp : ℤ :=
      if 85 ≤ efficiency_score then 5
      else if 70 ≤ efficiency_score then 3
      else 1
    let total_xp := base_xp + bonus_xp
    .ok { user := { coins := u.coins - water_config.cost, xp := u.xp + total_xp }
          crop := { c with water_level := new_water_level, health := new_health
                           total_investment := new_investment
                           care_score := new_care_score }
          cost_paid := water_config.cost
          efficiency_score := efficiency_score
          total_xp := total_xp }

/-! ## Fertilizing (`fertilize_crop`, main.py lines 1537–1716) -/

/-- A fertilizer type's cost and effects. -/
structure FertilizerOption where
  cost : ℤ
  nutrient_boost : ℚ
  health_boost : ℚ
  growth_bonus : ℚ
  quality_score : ℚ
  duration : ℚ
  deriving Repr, DecidableEq

/-- The `fertilizer_options` dict (main.py lines 1547–1560). -/
def fertilizer_options (fertilizer_type : String) : Option FertilizerOption :=
  if fertilizer_type = "basic" then some ⟨15, 30, 8, 12/10, 65, 7⟩
  else if fertilizer_type = "organic" then some ⟨25, 45, 15, 15/10, 85, 12⟩
  else if fertilizer_type = "premium" then some ⟨40, 60, 25, 2, 95, 18⟩
  else none

/-- Unrecognized fertilizer types fall back to `"basic"`
(main.py lines 1562–1563). -/
def normalize_fertilizer_type (fertilizer_type : String) : String :=
  if (fertilizer_options fertilizer_type).isSome then fertilizer_type
  else "basic"

/-- The payload `fertilize_crop` returns on success, together with the
updated user and crop rows. -/
structure FertilizeResult where
  user : User
  crop : Crop
  cost_paid : ℤ
  effectiveness : ℚ
  total_xp : ℤ
  deriving Repr, DecidableEq

/-- The `/farm/fertilize/{crop_id}` handler body, for a crop row already
looked up and owned by the user. -/
def fertilize_crop (u : User) (c : Crop) (fertilizer_type : String) :
    Except String FertilizeResult :=
  let ft := normalize_fertilizer_type fertilizer_type
  let fertilizer_config := (fertilizer_options ft).getD ⟨15, 30, 8, 12/10, 65, 7⟩
  if u.coins < fertilizer_config.cost then .error "Insufficient coins"
  else
    let current_fertilizer := pyOr c.fertilizer_level 50
    let current_health := pyOr c.health 50
    let current_water := pyOr c.water_level 50
    let growth_stage := pyOr c.growth_stage 1
    let current_investment := c.total_investment
    let current_care_score := pyOr c.care_score 60
    let growth_factor := 1 + growth_stage * (15/100)
    let water_synergy := 7/10 + current_water / 100 * (3/10)
    let over_fertilizer_penalty : ℚ := if 80 < current_fertilizer then 6/10 else 1
    let effectiveness_multiplier :=
      growth_factor * water_synergy * over_fertilizer_penalty
    let actual_nutrient_boost : ℤ :=
      pyInt (fertilizer_config.nutrient_boost * effectiveness_multiplier)
    let actual_health_boost : ℤ :=
      pyInt (fertilizer_config.health_boost * effectiveness_multiplier)
    let new_fertilizer_level :=
      min 100 (current_fertilizer + actual_nutrient_boost)
    let new_health := min 100 (current_health + actual_health_boost)
    let new_investment := current_investment + fertilizer_config.cost
    let fertilizer_quality_score :=
      fertilizer_config.quality_score * effectiveness_multiplier
    let new_care_score :=
      current_care_score * (7/10) + fertilizer_quality_score * (3/10)
    let base_xp : ℤ := 12
    let bonus_xp : ℤ :=
      if 13/10 ≤ effectiveness_multiplier then 8
      else if 1 ≤ effectiveness_multiplier then 5
      else if 8/10 ≤ effectiveness_multiplier then 2
      else 0
    let total_xp := base_xp + bonus_xp
    .ok { user := { coins := u.coins - fertilizer_config.cost
                    xp := u.xp + total_xp }
          crop := { c with fertilizer_level := new_fertilizer_level
                           health := new_health
                           total_investment := new_investment
                           care_score := new_care_score }
          cost_paid := fertilizer_config.cost
          effectiveness := effectiveness_multiplier
          total_xp := total_xp }

/-! ## Harvesting (`harvest_crop`, main.py lines 1479–1535) -/

/-- The farm state visible to `harvest_crop`: the requesting user's row and
that user's crop rows keyed by id. -/
structure GameState where
  user : User
  crops : List (ℕ × Crop)
  deriving Repr, DecidableEq

/-- The `/farm/harvest/{crop_id}` handler body.  On success it returns the
new state (crop row deleted, rewards credited) and the `(xp, coins)`
reward; an `error` models an `HTTPException` raised before any write. -/
def harvest_crop (s : GameState) (crop_id : ℕ) :
    Except String (GameState × ℤ × ℤ) :=
  match s.crops.lookup crop_id with
  | none => .error "Crop not found"
  | some crop =>
    if crop.growth_stage < 100 then .error "Crop not ready for harvest"
    else
      let base_reward : ℤ := 50
      let health_bonus : ℤ := pyInt (crop.health / 100 * 50)
      let total_xp := base_reward + health_bonus
      let total_coins := base_reward * 2 + health_bonus * 2
      .ok ({ user := { coins := s.user.coins + total_coins
                       xp := s.user.xp + total_xp }
             crops := s.crops.filter (fun p => p.1 ≠ crop_id) },
           total_xp, total_coins)

/-- The state after the harvest endpoint runs: an `HTTPException`
(error) commits nothing, so the state is unchanged. -/
def run_harvest (s : GameState) (crop_id : ℕ) : GameState :=
  match harvest_crop s crop_id with
  | .error _ => s
  | .ok (s', _, _) => s'

/-! ## Challenges (`challenges.py`) -/

/-- The live statistics `ChallengesService._get_user_stats` derives for a
user (the fields the challenge catalog reads). -/
structure UserStats where
  total_plants : ℕ
  total_waters : ℕ
  total_harvests : ℕ
  current_streak : ℕ
  week_activity : ℕ
  daily_activity : ℕ
  deriving Repr, DecidableEq

/-- A challenge entry as built by `ChallengesService` (the fields the
completion endpoint reads). -/
structure Challenge where
  id : String
  target : ℕ
  current : ℕ
  reward_xp : ℤ
  reward_coins : ℤ
  is_completed : Bool
  deriving Repr, DecidableEq

/-- The four fixed catalog entries built by `_get_active_challenges`
(challenges.py lines 189–271), before the completion filter. -/
def active_challenge_catalog (st : UserStats) : List Challenge :=
  [{ id := "plant_growth", target := 2, current := min st.total_plants 2
     reward_xp := 100, reward_coins := 50
     is_completed := decide (2 ≤ min st.total_plants 2) },
   { id := "water_conservation", target := 3, current := min st.total_waters 3
     reward_xp := 75, reward_coins := 25
     is_completed := decide (3 ≤ min st.total_waters 3) },
   { id := "harvest_success", target := 5, current := min st.total_harvests 5
     reward_xp := 1000, reward_coins := 200
     is_completed := decide (5 ≤ min st.total_harvests 5) },
   { id := "activity_streak", target := 7, current := min st.current_streak 7
     reward_xp := 800, reward_coins := 300
     is_completed := decide (7 ≤ min st.current_streak 7) }]

/-- `_get_active_challenges` returns only the not-yet-completed entries
(challenges.py line 273). -/
def get_active_challenges (st : UserStats) : List Challenge :=
  (active_challenge_catalog st).filter (fun c => !c.is_completed)

/-- `_get_weekly_challenges` (challenges.py lines 292–329). -/
def get_weekly_challenges (st : UserStats) : List Challenge :=
  [{ id := "weekly_activity", target := 15, current := st.week_activity
     reward_xp := 300, reward_coins := 75
     is_completed := decide (15 ≤ st.week_activity) }]

/-- `_get_daily_challenges` (challenges.py lines 331–365). -/
def get_daily_challenges (st : UserStats) : List Challenge :=
  [{ id := "daily_activity", target := 3, current := st.daily_activity
     reward_xp := 100, reward_coins := 25
     is_completed := decide (3 ≤ st.daily_activity) }]

/-- The columns of a `users` row that `ChallengesService.complete_challenge`
updates. -/
structure ChUser where
  coins : ℤ
  total_xp : ℤ
  level : ℤ
  deriving Repr, DecidableEq

/-- `ChallengesService.complete_challenge` (challenges.py lines 367–436):
re-derives the challenge lists, searches them for an entry with the given
id that `is_completed`, and on a hit applies the reward update. -/
def complete_challenge (st : UserStats) (u : ChUser) (challenge_id : String) :
    Except String (ChUser × ℤ × ℤ) :=
  let lists := get_active_challenges st ++ get_weekly_challenges st ++
    get_daily_challenges st
  match lists.find? (fun c => c.id == challenge_id && c.is_completed) with
  | none => .error "Challenge not found or not completed"
  | some challenge =>
    .ok ({ coins := u.coins + challenge.reward_coins
           total_xp := u.total_xp + challenge.reward_xp
           level := if u.level * 100 ≤ u.total_xp + challenge.reward_xp then
               u.level + 1
             else u.level },
         challenge.reward_xp, challenge.reward_coins)

/-! ## Achievements (`achievements.py`) -/

/-- A catalog achievement: id and reward (the unlock condition is evaluated
by `_get_achievement_progress` against the database; see `check_loop`). -/
structure AchDef where
  id : String
  reward_xp : ℤ
  reward_coins : ℤ
  deriving Repr, DecidableEq

/-- The static catalog `_initialize_achievements`
(achievements.py lines 43–208): ids with their XP/coin rewards. -/
def achievements_definitions : List AchDef :=
  [⟨"first_plant", 50, 25⟩, ⟨"first_water", 25, 10⟩,
   ⟨"first_fertilize", 35, 15⟩, ⟨"first_harvest", 100, 50⟩,
   ⟨"plant_collector", 200, 100⟩, ⟨"water_master", 300, 150⟩,
   ⟨"fertilizer_expert", 250, 125⟩, ⟨"harvest_champion", 500, 250⟩,
   ⟨"daily_farmer", 300, 150⟩, ⟨"dedicated_grower", 1000, 500⟩,
   ⟨"efficient_farmer", 400, 200⟩, ⟨"sustainability_advocate", 350, 175⟩,
   ⟨"premium_grower", 600, 300⟩, ⟨"coin_collector", 200, 100⟩,
   ⟨"experience_master", 300, 150⟩, ⟨"level_five", 500, 250⟩,
   ⟨"level_ten", 1000, 500⟩]

/-- The per-user state `check_achievements` reads and writes: the user's
`user_achievements` rows (unlock records, unique per achievement id by the
table's `UNIQUE(user_id, achievement_id)` constraint) and the reward
columns of the `users` row. -/
structure AchState where
  unlocked : List String
  coins : ℤ
  xp : ℤ
  deriving Repr, DecidableEq

/-- SQLite `INSERT OR IGNORE` against the `UNIQUE(user_id, achievement_id)`
constraint: insert the id only if it is not already recorded. -/
def insert_or_ignore (l : List String) (x : String) : List String :=
  if x ∈ l then l else l ++ [x]

/-- `_get_achievement_progress` evaluates an achievement's unlock condition
against live database statistics; it is modelled abstractly as a function
of the achievement id and the current user state (the `total_coins` /
`total_xp` conditions read the very columns the loop updates). -/
def Progress : Type := String → AchState → ℕ

/-- The loop body of `check_achievements` (achievements.py lines 355–384):
`unlocked_ids` is the snapshot read at the start of the call; an
achievement in it is skipped, otherwise when its progress reaches 100 the
unlock is recorded (`INSERT OR IGNORE`) and, when the reward is nonzero,
credited.  Returns the final state and the `newly_unlocked` list. -/
def check_loop (p : Progress) (unlocked_ids : List String) :
    List AchDef → AchState → AchState × List AchDef
  | [], s => (s, [])
  | a :: rest, s =>
    if a.id ∈ unlocked_ids then check_loop p unlocked_ids rest s
    else if 100 ≤ p a.id s then
      let s1 : AchState := { s with unlocked := insert_or_ignore s.unlocked a.id }
      let s2 : AchState :=
        if 0 < a.reward_xp ∨ 0 < a.reward_coins then
          { s1 with coins := s1.coins + a.reward_coins, xp := s1.xp + a.reward_xp }
        else s1
      let r := check_loop p unlocked_ids rest s2
      (r.1, a :: r.2)
    else check_loop p unlocked_ids rest s

/-- `AchievementsService.check_achievements`
(achievements.py lines 341–388). -/
def check_achievements (p : Progress) (s : AchState) : AchState × List AchDef :=
  check_loop p s.unlocked achievements_definitions s

/-- Sequential invocations of `check_achievements`, one progress oracle per
call; the `newly_unlocked` lists are concatenated in order. -/
def run_checks : List Progress → AchState → AchState × List AchDef
  | [], s => (s, [])
  | p :: ps, s =>
    let r := check_achievements p s
    let r' := run_checks ps r.1
    (r'.1, r.2 ++ r'.2)

/-! ## Scenario completion (`scenario_ai.py` lines 434–547) -/

/-- A remediation action of a plant scenario. -/
structure ScenarioAction where
  id : String
  name : String
  cost_coins : ℤ
  success_rate : ℚ
  reward_xp : ℤ
  reward_coins : ℤ
  deriving Repr, DecidableEq

/-- A `plant_scenarios` row (the columns `complete_scenario` touches). -/
structure PlantScenario where
  id : String
  active : Bool
  available_actions : List ScenarioAction
  resolution_action : Option String
  deriving Repr, DecidableEq

/-- A `user_progress` row (the columns `complete_scenario` touches). -/
structure UserProgress where
  level : ℤ
  total_scenarios_completed : ℤ
  deriving Repr, DecidableEq

/-- The state `complete_scenario` reads and writes: the user's reward
columns, the optional `user_progress` row, and the scenario row. -/
structure ScenarioState where
  user : User
  user_progress : Option UserProgress
  scenario : PlantScenario
  deriving Repr, DecidableEq

/-- `ScenarioGenerator._calculate_level` (scenario_ai.py lines 549–552):
`max(1, xp // 100 + 1)` with Python floor division. -/
def calculate_level (xp : ℤ) : ℤ := max 1 (Int.fdiv xp 100 + 1)

/-- `ScenarioGenerator.complete_scenario` (scenario_ai.py lines 434–547).
The single Bernoulli draw `random.random() < success_rate` is passed in as
`draw_success`.  Returns the committed state and whether the action
succeeded; an error leaves the state unchanged (nothing is committed). -/
def complete_scenario (st : ScenarioState) (action_id : String)
    (draw_success : Bool) : Except String (ScenarioState × Bool) :=
  match st.scenario.available_actions.find? (fun a => a.id == action_id) with
  | none => .error "Action not found"
  | some chosen_action =>
    if st.user.coins < chosen_action.cost_coins then
      .error "Insufficient coins"
    else if draw_success then
      let progress :=
        (st.user_progress.getD { level := 1, total_scenarios_completed := 0 })
      let new_xp := st.user.xp + chosen_action.reward_xp
      let new_coins :=
        st.user.coins - chosen_action.cost_coins + chosen_action.reward_coins
      let prev_level := progress.level
      let new_level := calculate_level new_xp
      .ok ({ user := { coins := new_coins, xp := new_xp }
             user_progress := some
               { level := if prev_level < new_level then new_level else prev_level
                 total_scenarios_completed :=
                   progress.total_scenarios_completed + 1 }
             scenario := { st.scenario with
                           active := false,
                           resolution_action := some action_id } },
           true)
    else
      .ok ({ st with user := { st.user with
               coins := st.user.coins - chosen_action.cost_coins } },
           false)

/-- The `efficiency_score` reported by a successful watering, as a function
of the tier and the stored water level (bridged to `water_crop` by
`water_crop_ok_efficiency`). -/
def watering_efficiency (quality_level : String) (stored_water : ℚ) : ℚ :=
  ((water_options (normalize_water_quality quality_level)).getD
      ⟨5, 25, 3, 60⟩).quality_score *
    max (1/2) ((100 - pyOr stored_water 50) / 100)


/-! ## Care-operation sequences (for the state invariant) -/

/-- One operation touching a crop: a farm-status read (passive decay and
growth, driven by the hours elapsed since planting), a watering, or a
fertilizing. -/
inductive CareOp where
  | status (hours : ℚ)
  | water (quality_level : String)
  | fertilize (fertilizer_type : String)

/-- The elapsed-hours argument of an operation (0 for care actions). -/
def op_hours : CareOp → ℚ
  | .status h => h
  | .water _ => 0
  | .fertilize _ => 0

/-- The state a care operation reads and writes: the user row and one crop
row. -/
structure CareWorld where
  user : User
  crop : Crop

/-- Applying one operation: a rejected care action (an `HTTPException`)
commits nothing and leaves the state unchanged. -/
def apply_care_op (w : CareWorld) : CareOp → CareWorld
  | .status h => { w with crop := farm_status_step w.crop h }
  | .water q =>
    match water_crop w.user w.crop q with
    | .ok r => { user := r.user, crop := r.crop }
    | .error _ => w
  | .fertilize t =>
    match fertilize_crop w.user w.crop t with
    | .ok r => { user := r.user, crop := r.crop }
    | .error _ => w

/-- The claimed state invariant on a crop row. -/
def CropInv (c : Crop) : Prop :=
  0 ≤ c.water_level ∧ c.water_level ≤ 100 ∧
  0 ≤ c.fertilizer_level ∧ c.fertilizer_level ≤ 100 ∧
  10 ≤ c.health ∧ c.health ≤ 100 ∧
  0 ≤ c.growth_stage ∧ c.growth_stage ≤ 100

/-- The invariant together with nonnegativity of the stored climate bonus
(fixed at planting from a sum of nonnegative band bonuses). -/
def CropOk (c : Crop) : Prop := CropInv c ∧ 0 ≤ c.climate_bonus


/-! ## Achievement crediting (C4) -/

/-- The coins one loop iteration credits for a newly unlocked achievement
(the reward `UPDATE` runs only when the reward is nonzero). -/
def credited_coins (a : AchDef) : ℤ :=
  if 0 < a.reward_xp ∨ 0 < a.reward_coins then a.reward_coins else 0

/-- The XP one loop iteration credits for a newly unlocked achievement. -/
def credited_xp (a : AchDef) : ℤ :=
  if 0 < a.reward_xp ∨ 0 < a.reward_coins then a.reward_xp else 0


/-! ## Helper lemmas -/

theorem pyInt_eq_floor (q : ℚ) (h : 0 ≤ q) : pyInt q = ⌊q⌋ := if_pos h

theorem pyInt_nonneg (q : ℚ) (h : 0 ≤ q) : 0 ≤ pyInt q := by
  rw [pyInt_eq_floor q h]
  exact Int.le_floor.mpr (by exact_mod_cast h)

theorem pyOr_nonneg (x d : ℚ) (hx : 0 ≤ x) (hd : 0 ≤ d) : 0 ≤ pyOr x d := by
  unfold pyOr
  split <;> assumption

theorem pyOr_of_ne (x d : ℚ) (hx : x ≠ 0) : pyOr x d = x := if_neg hx

theorem decay_crop_growth (c : Crop) (h : ℚ) :
    (decay_crop c h).growth_stage = c.growth_stage := by
  simp only [decay_crop]
  split <;> rfl

theorem decay_crop_climate (c : Crop) (h : ℚ) :
    (decay_crop c h).climate_bonus = c.climate_bonus := by
  simp only [decay_crop]
  split <;> rfl

theorem grow_crop_water (c : Crop) (h : ℚ) :
    (grow_crop c h).water_level = c.water_level := by
  simp only [grow_crop]
  split
  · split <;> rfl
  · rfl

theorem grow_crop_fertilizer (c : Crop) (h : ℚ) :
    (grow_crop c h).fertilizer_level = c.fertilizer_level := by
  simp only [grow_crop]
  split
  · split <;> rfl
  · rfl

theorem grow_crop_health (c : Crop) (h : ℚ) :
    (grow_crop c h).health = c.health := by
  simp only [grow_crop]
  split
  · split <;> rfl
  · rfl

theorem grow_crop_climate (c : Crop) (h : ℚ) :
    (grow_crop c h).climate_bonus = c.climate_bonus := by
  simp only [grow_crop]
  split
  · split <;> rfl
  · rfl

/-- C6: On every farm-status read, with `e = min h 24` effective hours,
water decays at 1.0/hour floored at 0, fertilizer at 0.8/hour floored at 0,
and health at 0.3/hour — doubled to 0.6/hour when the (decayed) water or
fertilizer level is below 30 — floored at 10.  (Whether the computed levels
are then written back is governed by the separate 1-unit
write-threshold in `decay_crop`.) -/
theorem decay_levels_formula (c : Crop) (h : ℚ) :
    decayed_levels c h =
      (max 0 (c.water_level - 1 * min h 24),
       max 0 (c.fertilizer_level - (8/10) * min h 24),
       max 10 (c.health -
         (if max 0 (c.water_level - 1 * min h 24) < 30 ∨
             max 0 (c.fertilizer_level - (8/10) * min h 24) < 30 then
            (6/10 : ℚ)
          else 3/10) * min h 24)) := by
  unfold decayed_levels water_degradation_rate fertilizer_degradation_rate
    health_degradation_rate
  norm_num

/-- C7: On a farm-status read, a crop below growth stage 100 has its growth
stage set to `min 100 (h × 25 × (1 + climate_bonus))`; a crop at stage 100
is left untouched by the growth step and is harvest-eligible; the read
never changes the climate bonus fixed at planting time. -/
theorem growth_update_spec (c : Crop) (h : ℚ) :
    (c.growth_stage < 100 →
      (grow_crop c h).growth_stage = min 100 (h * (25 * (1 + c.climate_bonus)))) ∧
    (c.growth_stage = 100 →
      grow_crop c h = c ∧
      ∀ (s : GameState) (cid : ℕ), s.crops.lookup cid = some c →
        ∃ out, harvest_crop s cid = .ok out) ∧
    (farm_status_step c h).climate_bonus = c.climate_bonus := by
  refine ⟨fun hlt => ?_, fun heq => ⟨?_, ?_⟩, ?_⟩
  · simp only [grow_crop, base_growth_rate, if_pos hlt]
    split
    · rfl
    · next hne =>
      exact (not_ne_iff.mp hne).symm
  · simp only [grow_crop, heq, if_neg (lt_irrefl (100 : ℚ))]
  · intro s cid hlook
    simp only [harvest_crop, hlook, heq, if_neg (lt_irrefl (100 : ℚ))]
    exact ⟨_, rfl⟩
  · rw [farm_status_step, grow_crop_climate, decay_crop_climate]

/-- Witness for C7 at a freshly planted crop read two hours later. -/
theorem growth_update_spec_witness :
    (grow_crop (plant_initial 0) 2).growth_stage =
      min 100 (2 * (25 * (1 + (plant_initial 0).climate_bonus))) :=
  (growth_update_spec (plant_initial 0) 2).1 (by norm_num [plant_initial])

/-- The water quality tier actually applied resolves to one of the three
configured tiers. -/
theorem water_options_normalize_cases (q : String) :
    water_options (normalize_water_quality q) = some ⟨5, 25, 3, 60⟩ ∨
    water_options (normalize_water_quality q) = some ⟨12, 40, 8, 80⟩ ∨
    water_options (normalize_water_quality q) = some ⟨20, 50, 15, 95⟩ := by
  unfold normalize_water_quality water_options
  split_ifs <;> simp_all

theorem water_crop_ok_efficiency (u : User) (c : Crop) (q : String)
    (r : WaterResult) (h : water_crop u c q = .ok r) :
    r.efficiency_score = watering_efficiency q c.water_level := by
  simp only [water_crop] at h
  split at h
  · exact absurd h (by simp)
  · injection h with h
    rw [← h]
    rfl

theorem water_quality_score_pos (q : String) :
    0 < ((water_options (normalize_water_quality q)).getD
      ⟨5, 25, 3, 60⟩).quality_score := by
  rcases water_options_normalize_cases q with h | h | h <;>
    rw [h] <;> norm_num

/-- C8: two crops identical except for their water level, watered with the
same tier by a user who can afford it: the crop at water level 10 gets a
strictly higher `efficiency_score` than the crop at water level 90. -/
theorem watering_efficiency_inverse (u : User) (c : Crop) (q : String)
    (hcoins : ((water_options (normalize_water_quality q)).getD
      ⟨5, 25, 3, 60⟩).cost ≤ u.coins) :
    ∃ r10 r90,
      water_crop u { c with water_level := 10 } q = .ok r10 ∧
      water_crop u { c with water_level := 90 } q = .ok r90 ∧
      r90.efficiency_score < r10.efficiency_score := by
  have hnot : ¬ u.coins < ((water_options (normalize_water_quality q)).getD
      ⟨5, 25, 3, 60⟩).cost := not_lt.mpr hcoins
  obtain ⟨r10, h10⟩ :
      ∃ r, water_crop u { c with water_level := 10 } q = .ok r := by
    simp only [water_crop, if_neg hnot]
    exact ⟨_, rfl⟩
  obtain ⟨r90, h90⟩ :
      ∃ r, water_crop u { c with water_level := 90 } q = .ok r := by
    simp only [water_crop, if_neg hnot]
    exact ⟨_, rfl⟩
  refine ⟨r10, r90, h10, h90, ?_⟩
  rw [water_crop_ok_efficiency _ _ _ _ h10, water_crop_ok_efficiency _ _ _ _ h90]
  show watering_efficiency q 90 < watering_efficiency q 10
  unfold watering_efficiency
  rw [pyOr_of_ne 90 50 (by norm_num), pyOr_of_ne 10 50 (by norm_num)]
  have e90 : max (1/2 : ℚ) ((100 - 90) / 100) = 1/2 := by norm_num
  have e10 : max (1/2 : ℚ) ((100 - 10) / 100) = 9/10 := by
    rw [max_eq_right] <;> norm_num
  rw [e90, e10]
  exact mul_lt_mul_of_pos_left (by norm_num) (water_quality_score_pos q)

/-- Witness for C8: a premium watering affordable with 100 coins. -/
theorem watering_efficiency_inverse_witness :
    ∃ r10 r90,
      water_crop ⟨100, 0⟩ { plant_initial 0 with water_level := 10 } "premium" =
        .ok r10 ∧
      water_crop ⟨100, 0⟩ { plant_initial 0 with water_level := 90 } "premium" =
        .ok r90 ∧
      r90.efficiency_score < r10.efficiency_score := by
  exact watering_efficiency_inverse ⟨100, 0⟩ (plant_initial 0) "premium"
    (by decide)

/-- C9 (amended): the need factor is `max(0.5, (100 − w)/100)` for every
nonzero stored water level `w`, but a stored water level of exactly 0 is
read as 50 by the `or 50` default and also yields factor 0.5; the
efficiency score is `quality_score × 0.5` for every water level ≥ 50, any
two water levels at or above 50 give exactly equal efficiency scores, and
between two positive water levels the lower of which is below 50 the lower
level gets the strictly higher efficiency score. -/
theorem watering_need_factor_spec (q : String) (w w1 w2 : ℚ) :
    (w ≠ 0 → watering_efficiency q w =
      ((water_options (normalize_water_quality q)).getD
          ⟨5, 25, 3, 60⟩).quality_score * max (1/2) ((100 - w) / 100)) ∧
    (watering_efficiency q 0 =
      ((water_options (normalize_water_quality q)).getD
          ⟨5, 25, 3, 60⟩).quality_score * (1/2)) ∧
    (50 ≤ w → watering_efficiency q w =
      ((water_options (normalize_water_quality q)).getD
          ⟨5, 25, 3, 60⟩).quality_score * (1/2)) ∧
    (50 ≤ w1 → 50 ≤ w2 →
      watering_efficiency q w1 = watering_efficiency q w2) ∧
    (0 < w1 → w1 < 50 → w1 < w2 →
      watering_efficiency q w2 < watering_efficiency q w1) := by
  have qpos := water_quality_score_pos q
  have key : ∀ v : ℚ, 50 ≤ v → watering_efficiency q v =
      ((water_options (normalize_water_quality q)).getD
          ⟨5, 25, 3, 60⟩).quality_score * (1/2) := by
    intro v hv
    unfold watering_efficiency
    rw [pyOr_of_ne v 50 (by intro h0; rw [h0] at hv; norm_num at hv)]
    rw [max_eq_left (by rw [div_le_iff₀ (by norm_num : (0:ℚ) < 100)]; linarith)]
  refine ⟨fun hw => ?_, ?_, key w, fun h1 h2 => (key w1 h1).trans (key w2 h2).symm,
    fun hpos hlt hlt2 => ?_⟩
  · unfold watering_efficiency
    rw [pyOr_of_ne w 50 hw]
  · unfold watering_efficiency
    have : pyOr 0 50 = 50 := if_pos rfl
    rw [this]
    norm_num
  · have e1 : watering_efficiency q w1 =
        ((water_options (normalize_water_quality q)).getD
            ⟨5, 25, 3, 60⟩).quality_score * ((100 - w1) / 100) := by
      unfold watering_efficiency
      rw [pyOr_of_ne w1 50 (ne_of_gt hpos)]
      rw [max_eq_right (by rw [le_div_iff₀ (by norm_num : (0:ℚ) < 100)]; linarith)]
    rcases le_or_lt 50 w2 with h2 | h2
    · rw [e1, key w2 h2]
      exact mul_lt_mul_of_pos_left
        (by rw [lt_div_iff₀ (by norm_num : (0:ℚ) < 100)]; linarith) qpos
    · have e2 : watering_efficiency q w2 =
          ((water_options (normalize_water_quality q)).getD
              ⟨5, 25, 3, 60⟩).quality_score * ((100 - w2) / 100) := by
        unfold watering_efficiency
        rw [pyOr_of_ne w2 50 (ne_of_gt (by linarith))]
        rw [max_eq_right (by rw [le_div_iff₀ (by norm_num : (0:ℚ) < 100)]; linarith)]
      rw [e1, e2]
      refine mul_lt_mul_of_pos_left ?_ qpos
      rw [div_lt_div_iff₀ (by norm_num : (0:ℚ) < 100) (by norm_num : (0:ℚ) < 100)]
      nlinarith

/-- Witness for C9's amended statement: basic watering at levels 60 and 80
(both ≥ 50) gives equal efficiency. -/
theorem watering_need_factor_spec_witness :
    watering_efficiency "basic" 60 = watering_efficiency "basic" 80 :=
  (watering_need_factor_spec "basic" 0 60 80).2.2.2.1 (by norm_num) (by norm_num)

/-- Counterexample to C9 as stated: at a stored water level of exactly 0
(reachable after prolonged decay) the `or 50` default makes the code
compute `efficiency_score = 60 × 0.5 = 30` for a basic watering, whereas
the claimed need-factor formula `max(0.5, (100 − 0)/100) = 1` would give
`60`. -/
theorem watering_need_factor_counterexample :
    (water_crop ⟨100, 0⟩ { plant_initial 0 with water_level := 0 } "basic").map
        (fun r => r.efficiency_score) = .ok 30 ∧
    (60 : ℚ) * max (1/2) ((100 - 0) / 100) = 60 ∧ (30 : ℚ) ≠ 60 := by
  refine ⟨?_, ?_, by norm_num⟩
  · obtain ⟨r, hr⟩ : ∃ r,
        water_crop ⟨100, 0⟩ { plant_initial 0 with water_level := 0 } "basic" =
          .ok r := by
      simp only [water_crop]
      rw [if_neg (by decide)]
      exact ⟨_, rfl⟩
    have hr30 : r.efficiency_score = 30 := by
      rw [water_crop_ok_efficiency _ _ _ _ hr]
      show watering_efficiency "basic" 0 = 30
      have hopt : water_options (normalize_water_quality "basic") =
          some ⟨5, 25, 3, 60⟩ := rfl
      unfold watering_efficiency
      rw [hopt, Option.getD_some, pyOr, if_pos rfl]
      norm_num
    rw [hr]
    show Except.ok r.efficiency_score = Except.ok 30
    rw [hr30]
  · rw [max_eq_right (by norm_num)]
    norm_num

/-- C10: a quality tier outside the recognized set is not rejected: the
watering / fertilizing operation behaves exactly as with `"basic"`, so the
basic tier's coin cost and effects are applied, and with enough coins for
the basic tier the operation succeeds. -/
theorem unknown_tier_falls_back_to_basic (t ft : String)
    (hw : t ∉ ["basic", "premium", "expert"])
    (hf : ft ∉ ["basic", "organic", "premium"]) :
    (∀ u c, water_crop u c t = water_crop u c "basic") ∧
    (∀ u c, fertilize_crop u c ft = fertilize_crop u c "basic") ∧
    (∀ u c, 5 ≤ u.coins → ∃ r, water_crop u c t = .ok r) ∧
    (∀ u c, 15 ≤ u.coins → ∃ r, fertilize_crop u c ft = .ok r) := by
  simp only [List.mem_cons, List.not_mem_nil, or_false, not_or] at hw hf
  obtain ⟨hw1, hw2, hw3⟩ := hw
  obtain ⟨hf1, hf2, hf3⟩ := hf
  have hwnone : water_options t = none := by
    unfold water_options
    rw [if_neg hw1, if_neg hw2, if_neg hw3]
  have hfnone : fertilizer_options ft = none := by
    unfold fertilizer_options
    rw [if_neg hf1, if_neg hf2, if_neg hf3]
  have hwnorm : normalize_water_quality t = "basic" := by
    unfold normalize_water_quality
    rw [hwnone]
    rfl
  have hfnorm : normalize_fertilizer_type ft = "basic" := by
    unfold normalize_fertilizer_type
    rw [hfnone]
    rfl
  have hwb : normalize_water_quality "basic" = "basic" := rfl
  have hfb : normalize_fertilizer_type "basic" = "basic" := rfl
  have hwsame : ∀ u c, water_crop u c t = water_crop u c "basic" := by
    intro u c
    simp only [water_crop, hwnorm, hwb]
  have hfsame : ∀ u c, fertilize_crop u c ft = fertilize_crop u c "basic" := by
    intro u c
    simp only [fertilize_crop, hfnorm, hfb]
  refine ⟨hwsame, hfsame, fun u c hc => ?_, fun u c hc => ?_⟩
  · rw [hwsame u c]
    have hcost : ((water_options (normalize_water_quality "basic")).getD
        ⟨5, 25, 3, 60⟩).cost = 5 := rfl
    simp only [water_crop, hcost]
    rw [if_neg (not_lt.mpr hc)]
    exact ⟨_, rfl⟩
  · rw [hfsame u c]
    have hcost : ((fertilizer_options (normalize_fertilizer_type "basic")).getD
        ⟨15, 30, 8, 12/10, 65, 7⟩).cost = 15 := rfl
    simp only [fertilize_crop, hcost]
    rw [if_neg (not_lt.mpr hc)]
    exact ⟨_, rfl⟩

/-- Witness for C10 with the unrecognized tier string `"deluxe"`. -/
theorem unknown_tier_falls_back_to_basic_witness :
    water_crop ⟨100, 0⟩ (plant_initial 0) "deluxe" =
      water_crop ⟨100, 0⟩ (plant_initial 0) "basic" ∧
    fertilize_crop ⟨100, 0⟩ (plant_initial 0) "deluxe" =
      fertilize_crop ⟨100, 0⟩ (plant_initial 0) "basic" := by
  have h := unknown_tier_falls_back_to_basic "deluxe" "deluxe"
    (by decide) (by decide)
  exact ⟨h.1 ⟨100, 0⟩ (plant_initial 0), h.2.1 ⟨100, 0⟩ (plant_initial 0)⟩

/-- C1: for a crop row owned by the requesting user, harvest is permitted
only at growth stage 100 — below 100 it returns an error and leaves the
user's coins, xp and all crop rows unchanged; at 100 it credits
`xp = 50 + ⌊health/100 × 50⌋` and `coins = 2 × xp` and deletes the crop
row (leaving the other rows). -/
theorem harvest_spec (s : GameState) (cid : ℕ) (c : Crop)
    (hc : s.crops.lookup cid = some c) (hh : 0 ≤ c.health) :
    (c.growth_stage < 100 →
      harvest_crop s cid = .error "Crop not ready for harvest" ∧
      run_harvest s cid = s) ∧
    (c.growth_stage = 100 →
      ∃ s' xp coins, harvest_crop s cid = .ok (s', xp, coins) ∧
        xp = 50 + ⌊c.health / 100 * 50⌋ ∧
        coins = 2 * xp ∧
        s'.user.coins = s.user.coins + coins ∧
        s'.user.xp = s.user.xp + xp ∧
        s'.crops = s.crops.filter (fun p => p.1 ≠ cid)) := by
  constructor
  · intro hlt
    have he : harvest_crop s cid = .error "Crop not ready for harvest" := by
      simp only [harvest_crop, hc, if_pos hlt]
    refine ⟨he, ?_⟩
    unfold run_harvest
    rw [he]
  · intro heq
    have hfl : pyInt (c.health / 100 * 50) = ⌊c.health / 100 * 50⌋ :=
      pyInt_eq_floor _ (mul_nonneg (div_nonneg hh (by norm_num)) (by norm_num))
    have hok : harvest_crop s cid = .ok
        ({ user := { coins := s.user.coins +
                       (50 * 2 + pyInt (c.health / 100 * 50) * 2),
                     xp := s.user.xp + (50 + pyInt (c.health / 100 * 50)) },
           crops := s.crops.filter (fun p => p.1 ≠ cid) },
         50 + pyInt (c.health / 100 * 50),
         50 * 2 + pyInt (c.health / 100 * 50) * 2) := by
      simp only [harvest_crop, hc, heq, if_neg (lt_irrefl (100 : ℚ))]
    refine ⟨_, _, _, hok, ?_, by ring, rfl, ?_, rfl⟩
    · rw [hfl]
    · rw [hfl]

/-- Witness for C1: harvesting a freshly planted (growth stage 0) crop is
rejected and changes nothing. -/
theorem harvest_spec_witness :
    harvest_crop ⟨⟨10, 5⟩, [(1, plant_initial 0)]⟩ 1 =
      .error "Crop not ready for harvest" ∧
    run_harvest ⟨⟨10, 5⟩, [(1, plant_initial 0)]⟩ 1 =
      ⟨⟨10, 5⟩, [(1, plant_initial 0)]⟩ :=
  (harvest_spec ⟨⟨10, 5⟩, [(1, plant_initial 0)]⟩ 1 (plant_initial 0) rfl
    (by norm_num [plant_initial])).1 (by norm_num [plant_initial])

/-- C5: completing an active scenario with one of its available actions,
affordably: the action's `cost_coins` is always deducted regardless of the
draw; on a successful draw the action's XP/coin rewards are credited and
the scenario is marked inactive with the chosen action recorded; on a
failed draw no reward is granted, only the cost is deducted, and the
scenario row is left unchanged (so it remains active). -/
theorem scenario_completion_spec (st : ScenarioState) (aid : String)
    (a : ScenarioAction)
    (ha : st.scenario.available_actions.find? (fun x => x.id == aid) = some a)
    (hactive : st.scenario.active = true)
    (hcoins : a.cost_coins ≤ st.user.coins) :
    ∀ draw : Bool, ∃ out : ScenarioState × Bool,
      complete_scenario st aid draw = .ok out ∧
      out.2 = draw ∧
      out.1.user.coins = st.user.coins - a.cost_coins +
        (if draw then a.reward_coins else 0) ∧
      (draw = true → out.1.user.xp = st.user.xp + a.reward_xp ∧
        out.1.scenario.active = false ∧
        out.1.scenario.resolution_action = some aid) ∧
      (draw = false → out.1.user.xp = st.user.xp ∧
        out.1.scenario = st.scenario ∧ out.1.scenario.active = true) := by
  have hnot : ¬ st.user.coins < a.cost_coins := not_lt.mpr hcoins
  intro draw
  cases draw with
  | false =>
    refine ⟨({ st with user := { st.user with
          coins := st.user.coins - a.cost_coins } }, false),
      ?_, rfl, by simp, by simp, fun _ => ⟨rfl, rfl, hactive⟩⟩
    simp only [complete_scenario, ha]
    rw [if_neg hnot, if_neg Bool.false_ne_true]
  | true =>
    refine ⟨({ user := { coins := st.user.coins - a.cost_coins + a.reward_coins,
                         xp := st.user.xp + a.reward_xp },
               user_progress := some
                 { level := if (st.user_progress.getD
                         { level := 1, total_scenarios_completed := 0 }).level <
                       calculate_level (st.user.xp + a.reward_xp) then
                     calculate_level (st.user.xp + a.reward_xp)
                   else (st.user_progress.getD
                     { level := 1, total_scenarios_completed := 0 }).level,
                   total_scenarios_completed := (st.user_progress.getD
                     { level := 1,
                       total_scenarios_completed := 0 }).total_scenarios_completed
                     + 1 },
               scenario := { st.scenario with
                             active := false,
                             resolution_action := some aid } }, true),
      ?_, rfl, by simp, fun _ => ⟨rfl, rfl, rfl⟩, by simp⟩
    simp only [complete_scenario, ha]
    rw [if_neg hnot, if_pos trivial]

/-- Witness for C5: a concrete active scenario with one 10-coin action,
completed with a successful draw. -/
theorem scenario_completion_spec_witness :
    ∃ out : ScenarioState × Bool,
      complete_scenario
        ⟨⟨50, 0⟩, none, ⟨"s1", true, [⟨"a1", "Act", 10, 1/2, 30, 20⟩], none⟩⟩
        "a1" true = .ok out ∧
      out.2 = true ∧
      out.1.user.coins = 50 - 10 + (if true then 20 else 0) ∧
      (true = true → out.1.user.xp = 0 + 30 ∧
        out.1.scenario.active = false ∧
        out.1.scenario.resolution_action = some "a1") ∧
      (true = false → out.1.user.xp = 0 ∧
        out.1.scenario = ⟨"s1", true, [⟨"a1", "Act", 10, 1/2, 30, 20⟩], none⟩ ∧
        out.1.scenario.active = true) :=
  scenario_completion_spec
    ⟨⟨50, 0⟩, none, ⟨"s1", true, [⟨"a1", "Act", 10, 1/2, 30, 20⟩], none⟩⟩
    "a1" ⟨"a1", "Act", 10, 1/2, 30, 20⟩ rfl rfl (by decide) true

/-- For every user-statistics snapshot, completing any of the four fixed
catalog challenges fails: `_get_active_challenges` filters out completed
entries, while `complete_challenge` searches that filtered list for an
entry with `is_completed` — a contradiction — and the weekly/daily ids
never match a catalog id. -/
theorem catalog_complete_always_fails (st : UserStats) (u : ChUser)
    (cid : String)
    (h : cid = "plant_growth" ∨ cid = "water_conservation" ∨
      cid = "harvest_success" ∨ cid = "activity_streak") :
    complete_challenge st u cid =
      .error "Challenge not found or not completed" := by
  have hweek : ("weekly_activity" == cid) = false := by
    rcases h with h | h | h | h <;> subst h <;> rfl
  have hday : ("daily_activity" == cid) = false := by
    rcases h with h | h | h | h <;> subst h <;> rfl
  have hnone : (get_active_challenges st ++ get_weekly_challenges st ++
      get_daily_challenges st).find?
        (fun c => c.id == cid && c.is_completed) = none := by
    rw [List.find?_eq_none]
    intro x hx
    simp only [List.mem_append] at hx
    rcases hx with (hx | hx) | hx
    · have hxf := (List.mem_filter.mp hx).2
      simp only [Bool.not_eq_true'] at hxf
      simp [hxf]
    · simp only [get_weekly_challenges, List.mem_singleton] at hx
      subst hx
      simp [hweek]
    · simp only [get_daily_challenges, List.mem_singleton] at hx
      subst hx
      simp [hday]
  simp only [complete_challenge, hnone]

/-- C3, settled as a code bug at a concrete failing input: a user whose
statistics meet every catalog target (2 plants, 3 waterings, 5 harvests,
7-day streak) still gets `"Challenge not found or not completed"` — and
therefore no XP/coin reward — when completing `"plant_growth"`, because
the completed entry was filtered out of the active list the completion
handler searches. -/
theorem plant_growth_completion_fails :
    complete_challenge ⟨2, 3, 5, 7, 0, 0⟩ ⟨0, 0, 1⟩ "plant_growth" =
      .error "Challenge not found or not completed" :=
  catalog_complete_always_fails ⟨2, 3, 5, 7, 0, 0⟩ ⟨0, 0, 1⟩ "plant_growth"
    (Or.inl rfl)

theorem decayed_levels_bounds (c : Crop) (h : ℚ) (hh : 0 ≤ h)
    (hc : CropInv c) :
    (0 ≤ (decayed_levels c h).1 ∧ (decayed_levels c h).1 ≤ 100) ∧
    (0 ≤ (decayed_levels c h).2.1 ∧ (decayed_levels c h).2.1 ≤ 100) ∧
    (10 ≤ (decayed_levels c h).2.2 ∧ (decayed_levels c h).2.2 ≤ 100) := by
  obtain ⟨w0, w1, f0, f1, h0, h1, g0, g1⟩ := hc
  have he0 : 0 ≤ min h 24 := le_min hh (by norm_num)
  have hwd : 0 ≤ water_degradation_rate * min h 24 :=
    mul_nonneg (by norm_num [water_degradation_rate]) he0
  have hfd : 0 ≤ fertilizer_degradation_rate * min h 24 :=
    mul_nonneg (by norm_num [fertilizer_degradation_rate]) he0
  have hhd : 0 ≤ (if max 0 (c.water_level - water_degradation_rate * min h 24) < 30 ∨
      max 0 (c.fertilizer_level - fertilizer_degradation_rate * min h 24) < 30 then
        health_degradation_rate * 2 else health_degradation_rate) * min h 24 := by
    refine mul_nonneg ?_ he0
    unfold health_degradation_rate
    split <;> norm_num
  simp only [decayed_levels]
  exact ⟨⟨le_max_left 0 _, max_le (by norm_num) (by linarith)⟩,
    ⟨le_max_left 0 _, max_le (by norm_num) (by linarith)⟩,
    ⟨le_max_left 10 _, max_le (by norm_num) (by linarith)⟩⟩

theorem decay_crop_inv (c : Crop) (h : ℚ) (hh : 0 ≤ h) (hc : CropInv c) :
    CropInv (decay_crop c h) := by
  obtain ⟨hwb, hfb, hhb⟩ := decayed_levels_bounds c h hh hc
  obtain ⟨w0, w1, f0, f1, h0, h1, g0, g1⟩ := hc
  simp only [decay_crop]
  split
  · exact ⟨hwb.1, hwb.2, hfb.1, hfb.2, hhb.1, hhb.2, g0, g1⟩
  · exact ⟨w0, w1, f0, f1, h0, h1, g0, g1⟩

theorem grow_crop_inv (c : Crop) (h : ℚ) (hh : 0 ≤ h)
    (hcb : 0 ≤ c.climate_bonus) (hc : CropInv c) : CropInv (grow_crop c h) := by
  obtain ⟨w0, w1, f0, f1, h0, h1, g0, g1⟩ := hc
  have hg : 0 ≤ h * (base_growth_rate * (1 + c.climate_bonus)) :=
    mul_nonneg hh (mul_nonneg (by norm_num [base_growth_rate]) (by linarith))
  simp only [grow_crop]
  split
  · split
    · exact ⟨w0, w1, f0, f1, h0, h1, le_min (by norm_num) hg, min_le_left _ _⟩
    · exact ⟨w0, w1, f0, f1, h0, h1, g0, g1⟩
  · exact ⟨w0, w1, f0, f1, h0, h1, g0, g1⟩

theorem farm_status_step_inv (c : Crop) (h : ℚ) (hh : 0 ≤ h)
    (hcb : 0 ≤ c.climate_bonus) (hc : CropInv c) :
    CropInv (farm_status_step c h) := by
  unfold farm_status_step
  refine grow_crop_inv _ _ hh ?_ (decay_crop_inv c h hh hc)
  rw [decay_crop_climate]
  exact hcb

theorem water_crop_inv (u : User) (c : Crop) (q : String) (r : WaterResult)
    (hr : water_crop u c q = .ok r) (hc : CropInv c) :
    CropInv r.crop ∧ r.crop.climate_bonus = c.climate_bonus := by
  obtain ⟨w0, w1, f0, f1, h0, h1, g0, g1⟩ := hc
  have hph : pyOr c.health 50 = c.health :=
    pyOr_of_ne _ _ (by intro h0'; rw [h0'] at h0; norm_num at h0)
  have hpw : 0 ≤ pyOr c.water_level 50 := pyOr_nonneg _ _ w0 (by norm_num)
  simp only [water_crop] at hr
  rcases water_options_normalize_cases q with hq | hq | hq
  · rw [hq, Option.getD_some] at hr
    split at hr
    · exact absurd hr (by simp)
    · injection hr with hr
      rw [← hr]
      refine ⟨⟨le_min (by norm_num) ?_, min_le_left _ _, f0, f1,
        le_min (by norm_num) ?_, min_le_left _ _, g0, g1⟩, rfl⟩
      · show (0 : ℚ) ≤ pyOr c.water_level 50 + 25
        linarith
      · show (10 : ℚ) ≤ pyOr c.health 50 + 3
        rw [hph]
        linarith
  · rw [hq, Option.getD_some] at hr
    split at hr
    · exact absurd hr (by simp)
    · injection hr with hr
      rw [← hr]
      refine ⟨⟨le_min (by norm_num) ?_, min_le_left _ _, f0, f1,
        le_min (by norm_num) ?_, min_le_left _ _, g0, g1⟩, rfl⟩
      · show (0 : ℚ) ≤ pyOr c.water_level 50 + 40
        linarith
      · show (10 : ℚ) ≤ pyOr c.health 50 + 8
        rw [hph]
        linarith
  · rw [hq, Option.getD_some] at hr
    split at hr
    · exact absurd hr (by simp)
    · injection hr with hr
      rw [← hr]
      refine ⟨⟨le_min (by norm_num) ?_, min_le_left _ _, f0, f1,
        le_min (by norm_num) ?_, min_le_left _ _, g0, g1⟩, rfl⟩
      · show (0 : ℚ) ≤ pyOr c.water_level 50 + 50
        linarith
      · show (10 : ℚ) ≤ pyOr c.health 50 + 15
        rw [hph]
        linarith

/-- The fertilizer type actually applied resolves to one of the three
configured types. -/
theorem fertilizer_options_normalize_cases (t : String) :
    fertilizer_options (normalize_fertilizer_type t) =
        some ⟨15, 30, 8, 12/10, 65, 7⟩ ∨
    fertilizer_options (normalize_fertilizer_type t) =
        some ⟨25, 45, 15, 15/10, 85, 12⟩ ∨
    fertilizer_options (normalize_fertilizer_type t) =
        some ⟨40, 60, 25, 2, 95, 18⟩ := by
  unfold normalize_fertilizer_type fertilizer_options
  split_ifs <;> simp_all

theorem fertilizer_config_nonneg (t : String) :
    0 ≤ ((fertilizer_options (normalize_fertilizer_type t)).getD
        ⟨15, 30, 8, 12/10, 65, 7⟩).nutrient_boost ∧
    0 ≤ ((fertilizer_options (normalize_fertilizer_type t)).getD
        ⟨15, 30, 8, 12/10, 65, 7⟩).health_boost := by
  rcases fertilizer_options_normalize_cases t with h | h | h <;>
    rw [h, Option.getD_some] <;> norm_num

theorem fertilize_crop_inv (u : User) (c : Crop) (t : String)
    (r : FertilizeResult) (hr : fertilize_crop u c t = .ok r)
    (hc : CropInv c) : CropInv r.crop ∧ r.crop.climate_bonus = c.climate_bonus := by
  obtain ⟨w0, w1, f0, f1, h0, h1, g0, g1⟩ := hc
  have hph : pyOr c.health 50 = c.health :=
    pyOr_of_ne _ _ (by intro h0'; rw [h0'] at h0; norm_num at h0)
  have hpf : 0 ≤ pyOr c.fertilizer_level 50 := pyOr_nonneg _ _ f0 (by norm_num)
  have hpg : 0 ≤ pyOr c.growth_stage 1 := pyOr_nonneg _ _ g0 (by norm_num)
  have hpw : 0 ≤ pyOr c.water_level 50 := pyOr_nonneg _ _ w0 (by norm_num)
  have hmult : 0 ≤ (1 + pyOr c.growth_stage 1 * (15/100)) *
      (7/10 + pyOr c.water_level 50 / 100 * (3/10)) *
      (if 80 < pyOr c.fertilizer_level 50 then (6/10 : ℚ) else 1) := by
    refine mul_nonneg (mul_nonneg ?_ ?_) ?_
    · nlinarith
    · nlinarith
    · split <;> norm_num
  have hcfg := fertilizer_config_nonneg t
  have hb1 : (0 : ℚ) ≤
      ((pyInt (((fertilizer_options (normalize_fertilizer_type t)).getD
          ⟨15, 30, 8, 12/10, 65, 7⟩).nutrient_boost *
        ((1 + pyOr c.growth_stage 1 * (15/100)) *
          (7/10 + pyOr c.water_level 50 / 100 * (3/10)) *
          (if 80 < pyOr c.fertilizer_level 50 then (6/10 : ℚ) else 1)))) : ℤ) := by
    exact_mod_cast pyInt_nonneg _ (mul_nonneg hcfg.1 hmult)
  have hb2 : (0 : ℚ) ≤
      ((pyInt (((fertilizer_options (normalize_fertilizer_type t)).getD
          ⟨15, 30, 8, 12/10, 65, 7⟩).health_boost *
        ((1 + pyOr c.growth_stage 1 * (15/100)) *
          (7/10 + pyOr c.water_level 50 / 100 * (3/10)) *
          (if 80 < pyOr c.fertilizer_level 50 then (6/10 : ℚ) else 1)))) : ℤ) := by
    exact_mod_cast pyInt_nonneg _ (mul_nonneg hcfg.2 hmult)
  simp only [fertilize_crop] at hr
  split at hr
  · exact absurd hr (by simp)
  · injection hr with hr
    rw [← hr]
    refine ⟨⟨w0, w1, le_min (by norm_num) (by linarith), min_le_left _ _,
      le_min (by norm_num) (by rw [hph]; linarith), min_le_left _ _,
      g0, g1⟩, rfl⟩

theorem apply_care_op_ok (w : CareWorld) (op : CareOp)
    (hop : 0 ≤ op_hours op) (hw : CropOk w.crop) :
    CropOk (apply_care_op w op).crop := by
  obtain ⟨hinv, hcb⟩ := hw
  cases op with
  | status h =>
    refine ⟨farm_status_step_inv _ _ hop hcb hinv, ?_⟩
    show 0 ≤ (farm_status_step w.crop h).climate_bonus
    rw [farm_status_step, grow_crop_climate, decay_crop_climate]
    exact hcb
  | water q =>
    cases hm : water_crop w.user w.crop q with
    | error e =>
      have hsame : apply_care_op w (.water q) = w := by
        simp [apply_care_op, hm]
      rw [hsame]
      exact ⟨hinv, hcb⟩
    | ok r =>
      obtain ⟨hi, hcb'⟩ := water_crop_inv _ _ _ _ hm hinv
      have hsame : apply_care_op w (.water q) =
          { user := r.user, crop := r.crop } := by
        simp [apply_care_op, hm]
      rw [hsame]
      exact ⟨hi, by rw [hcb']; exact hcb⟩
  | fertilize t =>
    cases hm : fertilize_crop w.user w.crop t with
    | error e =>
      have hsame : apply_care_op w (.fertilize t) = w := by
        simp [apply_care_op, hm]
      rw [hsame]
      exact ⟨hinv, hcb⟩
    | ok r =>
      obtain ⟨hi, hcb'⟩ := fertilize_crop_inv _ _ _ _ hm hinv
      have hsame : apply_care_op w (.fertilize t) =
          { user := r.user, crop := r.crop } := by
        simp [apply_care_op, hm]
      rw [hsame]
      exact ⟨hi, by rw [hcb']; exact hcb⟩

theorem foldl_care_ok (ops : List CareOp) :
    ∀ (w : CareWorld), CropOk w.crop → (∀ op ∈ ops, 0 ≤ op_hours op) →
      CropOk ((ops.foldl apply_care_op w).crop) := by
  induction ops with
  | nil => intro w hw _; exact hw
  | cons op rest ih =>
    intro w hw hops
    rw [List.foldl_cons]
    exact ih _ (apply_care_op_ok w op (hops op (by simp)) hw)
      (fun o ho => hops o (by simp [ho]))

/-- C2: starting from the row planted by `plant_crop` (growth 0, water 60,
health 75, fertilizer 40, nonnegative climate bonus), after any sequence
of farm-status reads (passive decay and growth, with nonnegative elapsed
hours), waterings and fertilizings, the stored crop satisfies
`0 ≤ water_level ≤ 100`, `0 ≤ fertilizer_level ≤ 100`, `10 ≤ health ≤ 100`
and `0 ≤ growth_stage ≤ 100`. -/
theorem care_sequence_invariant (cb : ℚ) (hcb : 0 ≤ cb) (u : User)
    (ops : List CareOp) (hops : ∀ op ∈ ops, 0 ≤ op_hours op) :
    CropInv ((ops.foldl apply_care_op ⟨u, plant_initial cb⟩).crop) :=
  (foldl_care_ok ops ⟨u, plant_initial cb⟩
    ⟨by exact ⟨by norm_num [plant_initial], by norm_num [plant_initial],
       by norm_num [plant_initial], by norm_num [plant_initial],
       by norm_num [plant_initial], by norm_num [plant_initial],
       by norm_num [plant_initial], by norm_num [plant_initial]⟩, hcb⟩
    hops).1

/-- Witness for C2: a concrete four-operation care sequence. -/
theorem care_sequence_invariant_witness :
    CropInv (([CareOp.status 2, CareOp.water "basic",
        CareOp.fertilize "organic", CareOp.status 30].foldl apply_care_op
        ⟨⟨1000, 0⟩, plant_initial 0⟩).crop) :=
  care_sequence_invariant 0 le_rfl ⟨1000, 0⟩ _
    (by intro op hop; fin_cases hop <;> norm_num [op_hours])

theorem mem_insert_or_ignore (l : List String) (x : String) :
    x ∈ insert_or_ignore l x := by
  unfold insert_or_ignore
  split
  · assumption
  · simp

theorem subset_insert_or_ignore (l : List String) (x : String) :
    l ⊆ insert_or_ignore l x := by
  unfold insert_or_ignore
  split
  · exact fun _ h => h
  · exact List.subset_append_left l [x]

theorem insert_or_ignore_nodup (l : List String) (x : String)
    (h : l.Nodup) : (insert_or_ignore l x).Nodup := by
  unfold insert_or_ignore
  split
  · exact h
  · next hx =>
    rw [List.nodup_append]
    exact ⟨h, List.nodup_singleton x,
      fun y hy hy' => hx (by rwa [List.mem_singleton.mp hy'] at hy)⟩

theorem check_loop_newly_sublist (p : Progress) (U : List String) :
    ∀ (defs : List AchDef) (s : AchState),
      (check_loop p U defs s).2.Sublist defs := by
  intro defs
  induction defs with
  | nil => intro s; simp [check_loop]
  | cons a rest ih =>
    intro s
    simp only [check_loop]
    split
    · exact (ih s).cons a
    · split
      · exact (ih _).cons₂ a
      · exact (ih s).cons a

theorem check_loop_newly_not_in_snapshot (p : Progress) (U : List String) :
    ∀ (defs : List AchDef) (s : AchState) (b : AchDef),
      b ∈ (check_loop p U defs s).2 → b.id ∉ U := by
  intro defs
  induction defs with
  | nil => intro s b hb; simp [check_loop] at hb
  | cons a rest ih =>
    intro s b hb
    simp only [check_loop] at hb
    split at hb
    · exact ih s b hb
    · split at hb
      · rcases List.mem_cons.mp hb with rfl | hb'
        · next hskip _ => exact hskip
        · exact ih _ b hb'
      · exact ih s b hb

theorem check_loop_unlocked_mono (p : Progress) (U : List String) :
    ∀ (defs : List AchDef) (s : AchState),
      s.unlocked ⊆ (check_loop p U defs s).1.unlocked := by
  intro defs
  induction defs with
  | nil => intro s; exact fun _ h => h
  | cons a rest ih =>
    intro s
    simp only [check_loop]
    split
    · exact ih s
    · split
      · split
        · exact fun x hx => ih _ (subset_insert_or_ignore _ _ hx)
        · exact fun x hx => ih _ (subset_insert_or_ignore _ _ hx)
      · exact ih s

theorem check_loop_unlocked_nodup (p : Progress) (U : List String) :
    ∀ (defs : List AchDef) (s : AchState), s.unlocked.Nodup →
      (check_loop p U defs s).1.unlocked.Nodup := by
  intro defs
  induction defs with
  | nil => intro s hs; exact hs
  | cons a rest ih =>
    intro s hs
    simp only [check_loop]
    split
    · exact ih s hs
    · split
      · split
        · exact ih _ (insert_or_ignore_nodup _ _ hs)
        · exact ih _ (insert_or_ignore_nodup _ _ hs)
      · exact ih s hs

theorem check_loop_mem_newly (p : Progress) (U : List String) :
    ∀ (defs : List AchDef) (s : AchState) (a : AchDef), a ∈ defs →
      a.id ∉ U → (∀ st, 100 ≤ p a.id st) →
      a ∈ (check_loop p U defs s).2 ∧
      a.id ∈ (check_loop p U defs s).1.unlocked := by
  intro defs
  induction defs with
  | nil => intro s a ha; exact absurd ha (List.not_mem_nil a)
  | cons b rest ih =>
    intro s a ha hnew hmet
    rcases List.mem_cons.mp ha with rfl | ha'
    · simp only [check_loop]
      rw [if_neg hnew, if_pos (hmet s)]
      refine ⟨List.mem_cons_self _ _, ?_⟩
      refine check_loop_unlocked_mono p U rest _ ?_
      split
      · exact mem_insert_or_ignore _ _
      · exact mem_insert_or_ignore _ _
    · simp only [check_loop]
      split
      · exact ih s a ha' hnew hmet
      · split
        · obtain ⟨h1, h2⟩ := ih _ a ha' hnew hmet
          exact ⟨List.mem_cons_of_mem b h1, h2⟩
        · exact ih s a ha' hnew hmet

theorem check_loop_accounting (p : Progress) (U : List String) :
    ∀ (defs : List AchDef) (s : AchState),
      (check_loop p U defs s).1.coins =
        s.coins + ((check_loop p U defs s).2.map credited_coins).sum ∧
      (check_loop p U defs s).1.xp =
        s.xp + ((check_loop p U defs s).2.map credited_xp).sum := by
  intro defs
  induction defs with
  | nil => intro s; simp [check_loop]
  | cons a rest ih =>
    intro s
    simp only [check_loop]
    split
    · exact ih s
    · by_cases hp : 100 ≤ p a.id s
      · rw [if_pos hp]
        by_cases hg : 0 < a.reward_xp ∨ 0 < a.reward_coins
        · rw [if_pos hg]
          dsimp only
          obtain ⟨hc, hx⟩ := ih ⟨insert_or_ignore s.unlocked a.id,
            s.coins + a.reward_coins, s.xp + a.reward_xp⟩
          dsimp only at hc hx
          rw [hc, hx]
          simp only [List.map_cons, List.sum_cons, credited_coins,
            credited_xp, if_pos hg]
          constructor <;> ring
        · rw [if_neg hg]
          dsimp only
          obtain ⟨hc, hx⟩ := ih ⟨insert_or_ignore s.unlocked a.id,
            s.coins, s.xp⟩
          dsimp only at hc hx
          rw [hc, hx]
          simp only [List.map_cons, List.sum_cons, credited_coins,
            credited_xp, if_neg hg]
          constructor <;> ring
      · rw [if_neg hp]
        exact ih s

theorem check_achievements_unlock_once (p : Progress) (s : AchState)
    (a : AchDef) (ha : a ∈ achievements_definitions)
    (hnew : a.id ∉ s.unlocked) (hmet : ∀ st, 100 ≤ p a.id st) :
    ((check_achievements p s).2.map (·.id)).count a.id = 1 ∧
    a.id ∈ (check_achievements p s).1.unlocked := by
  obtain ⟨hmem, hunl⟩ := check_loop_mem_newly p s.unlocked
    achievements_definitions s a ha hnew hmet
  refine ⟨le_antisymm ?_ ?_, hunl⟩
  · have hsub := ((check_loop_newly_sublist p s.unlocked
      achievements_definitions s).map (·.id)).count_le a.id
    have hcat : (achievements_definitions.map (·.id)).count a.id = 1 := by
      fin_cases ha <;> decide
    calc ((check_achievements p s).2.map (·.id)).count a.id
        ≤ (achievements_definitions.map (·.id)).count a.id := hsub
      _ = 1 := hcat
  · have hpos : 0 < ((check_achievements p s).2.map (·.id)).count a.id :=
      List.count_pos_iff.mpr (List.mem_map_of_mem (·.id) hmem)
    omega

theorem run_checks_skip (a : AchDef) :
    ∀ (ps : List Progress) (s : AchState), a.id ∈ s.unlocked →
      ((run_checks ps s).2.map (·.id)).count a.id = 0 ∧
      a.id ∈ (run_checks ps s).1.unlocked := by
  intro ps
  induction ps with
  | nil => intro s hs; exact ⟨by simp [run_checks], hs⟩
  | cons p ps ih =>
    intro s hs
    have hmono : a.id ∈ (check_achievements p s).1.unlocked :=
      check_loop_unlocked_mono p s.unlocked achievements_definitions s hs
    obtain ⟨ih0, ih1⟩ := ih (check_achievements p s).1 hmono
    simp only [run_checks]
    refine ⟨?_, ih1⟩
    rw [List.map_append, List.count_append]
    have h1 : ((check_achievements p s).2.map (·.id)).count a.id = 0 := by
      rw [List.count_eq_zero]
      intro hmem
      obtain ⟨b, hb, hbid⟩ := List.mem_map.mp hmem
      refine check_loop_newly_not_in_snapshot p s.unlocked
        achievements_definitions s b hb ?_
      rw [hbid]
      exact hs
    omega

theorem run_checks_nodup :
    ∀ (ps : List Progress) (s : AchState), s.unlocked.Nodup →
      (run_checks ps s).1.unlocked.Nodup := by
  intro ps
  induction ps with
  | nil => intro s hs; exact hs
  | cons p ps ih =>
    intro s hs
    exact ih _ (check_loop_unlocked_nodup p s.unlocked
      achievements_definitions s hs)

theorem run_checks_accounting :
    ∀ (ps : List Progress) (s : AchState),
      (run_checks ps s).1.coins =
        s.coins + ((run_checks ps s).2.map credited_coins).sum ∧
      (run_checks ps s).1.xp =
        s.xp + ((run_checks ps s).2.map credited_xp).sum := by
  intro ps
  induction ps with
  | nil => intro s; simp [run_checks]
  | cons p ps ih =>
    intro s
    obtain ⟨hc1, hx1⟩ := check_loop_accounting p s.unlocked
      achievements_definitions s
    obtain ⟨hc2, hx2⟩ := ih (check_achievements p s).1
    simp only [check_achievements] at hc2 hx2
    simp only [run_checks, check_achievements, List.map_append, List.sum_append]
    constructor
    · rw [hc2, hc1]
      ring
    · rw [hx2, hx1]
      ring

/-- C4: starting from a state where achievement `a` is not yet recorded, if
its unlock condition reads as met at the first `check_achievements` call,
then over any number of further sequential calls (with arbitrary progress
readings) `a` is reported newly-unlocked exactly once, its unlock record
appears exactly once (`INSERT OR IGNORE` under the
`UNIQUE(user_id, achievement_id)` constraint), and the user's coins/xp
equal the initial values plus each newly-unlocked achievement's reward
credited exactly once. -/
theorem achievements_credit_once (a : AchDef)
    (ha : a ∈ achievements_definitions) (p : Progress) (ps : List Progress)
    (s : AchState) (hnew : a.id ∉ s.unlocked) (hnd : s.unlocked.Nodup)
    (hmet : ∀ st, 100 ≤ p a.id st) :
    ((run_checks (p :: ps) s).2.map (·.id)).count a.id = 1 ∧
    (run_checks (p :: ps) s).1.unlocked.count a.id = 1 ∧
    (run_checks (p :: ps) s).1.coins =
      s.coins + ((run_checks (p :: ps) s).2.map credited_coins).sum ∧
    (run_checks (p :: ps) s).1.xp =
      s.xp + ((run_checks (p :: ps) s).2.map credited_xp).sum := by
  obtain ⟨h1, hunl⟩ := check_achievements_unlock_once p s a ha hnew hmet
  obtain ⟨h2, hmem⟩ := run_checks_skip a ps (check_achievements p s).1 hunl
  obtain ⟨hc, hx⟩ := run_checks_accounting (p :: ps) s
  refine ⟨?_, ?_, hc, hx⟩
  · show ((run_checks (p :: ps) s).2.map (·.id)).count a.id = 1
    simp only [run_checks, List.map_append, List.count_append]
    omega
  · have hndf : (run_checks (p :: ps) s).1.unlocked.Nodup :=
      run_checks_nodup (p :: ps) s hnd
    have hmemf : a.id ∈ (run_checks (p :: ps) s).1.unlocked := by
      simp only [run_checks]
      exact hmem
    exact List.count_eq_one_of_mem hndf hmemf

/-- Witness for C4: two sequential checks from a fresh user whose progress
oracle reports every condition met; `first_plant` is credited once. -/
theorem achievements_credit_once_witness :
    ((run_checks [fun _ _ => 100, fun _ _ => 100] ⟨[], 0, 0⟩).2.map
      (·.id)).count "first_plant" = 1 ∧
    (run_checks [fun _ _ => 100, fun _ _ => 100]
      ⟨[], 0, 0⟩).1.unlocked.count "first_plant" = 1 ∧
    (run_checks [fun _ _ => 100, fun _ _ => 100] ⟨[], 0, 0⟩).1.coins =
      0 + ((run_checks [fun _ _ => 100, fun _ _ => 100] ⟨[], 0, 0⟩).2.map
        credited_coins).sum ∧
    (run_checks [fun _ _ => 100, fun _ _ => 100] ⟨[], 0, 0⟩).1.xp =
      0 + ((run_checks [fun _ _ => 100, fun _ _ => 100] ⟨[], 0, 0⟩).2.map
        credited_xp).sum :=
  achievements_credit_once ⟨"first_plant", 50, 25⟩ (by decide)
    (fun _ _ => 100) [fun _ _ => 100] ⟨[], 0, 0⟩ (List.not_mem_nil _)
    List.nodup_nil (fun _ => le_refl 100)

end FasalSeva
